import Mathlib

/-!
Shallow embedding of the grade-management TCP service
(`src/con_hilos/server.py`, `src/sin_hilos/server.py`, `src/nrcs_server.py`).

The CSV-backed store is modelled as an in-memory list of records; each
handler is the pure function `parts → store → response × store` obtained by
reading the Python handler bodies literally (load-all / mutate / save-all
becomes explicit state passing).  Python dictionaries read from
`estudiantes.csv` and `nrcs.csv` are modelled as association lists, with
the dict-building loops' skip-falsy-key and last-assignment-wins semantics
made explicit.  The network interaction of `consultar_nrc` is modelled by
an inductive type of observable socket outcomes.
-/

namespace Lab2

/-- A row of `calificaciones.csv` (fieldnames `ID_Estudiante, Materia,
Calificacion`, see `FIELDNAMES` in both servers). -/
structure Record where
  id : String
  materia : String
  calificacion : String
deriving DecidableEq, Repr

/-- The persistent store: the full contents of `calificaciones.csv`
in file order (`load_records` / `save_records` move the whole list). -/
abbrev Store := List Record

/-- `estudiantes.csv` contents: `(ID_Estudiante, Nombre)` rows in file order. -/
abbrev Roster := List (String × String)

/-- A record as it appears in a JSON response: the `Nombre` key is only
present when enrichment succeeded, hence the `Option`. -/
structure Row where
  id : String
  materia : String
  calificacion : String
  nombre : Option String
deriving DecidableEq, Repr

/-- The `data` payload of an `ok` response: a single record object
(AGREGAR / ACTUALIZAR), an array of records (BUSCAR / LISTAR), or the
`{ID_Estudiante, Materia}` object returned by ELIMINAR. -/
inductive RData where
  | row (r : Row)
  | rows (rs : List Row)
  | idMateria (id materia : String)
deriving DecidableEq, Repr

/-- A response line: JSON object with `status` ∈ {ok, not_found, error}. -/
inductive Resp where
  | ok (data : RData)
  | notFound (message : String)
  | error (message : String)
deriving DecidableEq, Repr

/-! ### Python string primitives used by the dispatchers -/

/-- The whitespace characters removed by Python `str.strip()`
(ASCII subset; command lines are ASCII). -/
def isPySpace (c : Char) : Bool :=
  c = ' ' || c = '\t' || c = '\n' || c = '\r' || c = '\x0b' || c = '\x0c'

/-- Python `line.strip()` on the underlying character list. -/
def pyStripList (l : List Char) : List Char :=
  ((l.dropWhile isPySpace).reverse.dropWhile isPySpace).reverse

/-- Python `line.strip()`. -/
def pyStrip (s : String) : String := ⟨pyStripList s.data⟩

/-- Python `line.split("|")` on the character list: `""` gives `[""]`,
`"|"` gives `["",""]`, etc. -/
def splitBar : List Char → List (List Char)
  | [] => [[]]
  | c :: cs =>
    if c = '|' then [] :: splitBar cs
    else
      match splitBar cs with
      | [] => [[c]]
      | f :: rest => (c :: f) :: rest

/-- Python `line.split("|")`. -/
def pySplit (s : String) : List String := (splitBar s.data).map (fun l => ⟨l⟩)

/-- Python `str.upper()` (ASCII model; command names are ASCII). -/
def pyUpper (s : String) : String := ⟨s.data.map Char.toUpper⟩

/-! ### Roster and catalog lookups -/

/-- `get_estudiante_nombre` (identical in both servers): scan
`estudiantes.csv` in order, return the first row whose `ID_Estudiante`
matches; `row.get("Nombre") or ""` never yields `None`, so a match always
produces a name string (possibly empty). -/
def get_estudiante_nombre (roster : Roster) (sid : String) : Option String :=
  (roster.find? (fun e => e.1 == sid)).map (fun e => e.2)

/-- The `{key → row}` dict built by `load_estudiantes_map` /
`load_nrc_map`: rows with a falsy (empty) key are skipped, later rows
overwrite earlier ones, so `.get` returns the last surviving match. -/
def py_dict_get (l : List (String × String)) (key : String) :
    Option (String × String) :=
  (l.filter (fun e => !(e.1 == ""))).reverse.find? (fun e => e.1 == key)

/-- `load_estudiantes_map(...).get(student_id)`. -/
def est_map_get (roster : Roster) (sid : String) : Option String :=
  (py_dict_get roster sid).map (fun e => e.2)

/-- Python truthiness of the looked-up name: `if nombre_canon:` is false
both for `None` (id absent from the dict) and for the empty string. -/
def truthy (o : Option String) : Option String :=
  match o with
  | some n => if n = "" then none else some n
  | none => none

/-- Enrich one stored record with the canonical display name, as
`handle_listar` does per row (`if nombre_canon: rr["Nombre"] = ...`). -/
def enrich (roster : Roster) (r : Record) : Row :=
  ⟨r.id, r.materia, r.calificacion, truthy (est_map_get roster r.id)⟩

/-! ### NRC catalog service (`nrcs_server.py`) and validation client -/

/-- A decoded JSON reply of the NRC microservice
(`{"status":"ok","data":{"NRC":...,"Materia":...}}`, `{"status":"not_found"}`,
`{"status":"error","message":...}`). -/
inductive NrcResp where
  | ok (nrc materia : String)
  | notFound
  | error (message : String)
deriving DecidableEq, Repr

/-- `load_nrc_map(...).get(nrc)` in `nrcs_server.py`. -/
def nrc_map_get (catalog : List (String × String)) (nrc : String) :
    Option (String × String) :=
  py_dict_get catalog nrc

/-- Shared line parsing of both dispatchers: `line.strip()`, then
`line.split("|") if line else []`. -/
def pcParse (line : String) : List String :=
  let stripped := pyStrip line
  if stripped == "" then [] else pySplit stripped

/-- `process` in `nrcs_server.py`: parse, check `BUSCAR_NRC` with exactly
one argument, then look the code up in the catalog dict. -/
def nrcs_process (catalog : List (String × String)) (line : String) : NrcResp :=
  match pcParse line with
  | [] => .error "Comando vacío"
  | p0 :: rest =>
    let cmd := pyUpper p0
    match rest with
    | [nrc] =>
      if cmd == "BUSCAR_NRC" then
        match nrc_map_get catalog nrc with
        | some e => .ok e.1 e.2
        | none => .notFound
      else .error "Formato: BUSCAR_NRC|{nrc}"
    | _ => .error "Formato: BUSCAR_NRC|{nrc}"

/-- One observable outcome of the socket interaction inside
`consultar_nrc` (`src/con_hilos/server.py`): the `try` block either raises
(connection failure or the 3-second timeout expiring, both caught by the
same `except Exception`), yields no bytes, yields a first line that
`json.loads` rejects, or yields a decoded JSON reply. -/
inductive NetOutcome where
  | connError (e : String)
  | timeoutErr (e : String)
  | noData
  | badJson (raw : String)
  | response (r : NrcResp)
deriving DecidableEq, Repr

/-- `consultar_nrc`: total over every socket outcome; every transport or
decoding failure is folded into a `status: error` dict with a message. -/
def consultar_nrc (o : NetOutcome) : NrcResp :=
  match o with
  | .connError e => .error ("NRC service error: " ++ e)
  | .timeoutErr e => .error ("NRC service error: " ++ e)
  | .noData => .error "NRC service sin respuesta"
  | .badJson raw => .error ("NRC JSON inválido: " ++ raw)
  | .response r => r

/-- The full healthy-network round trip a single AGREGAR performs:
`consultar_nrc` sends `BUSCAR_NRC|{materia}` and the live catalog service
answers via `nrcs_process` on its current state — looked up afresh on
every call, nothing cached. -/
def consultar_live (catalog : List (String × String)) (nrc : String) : NrcResp :=
  consultar_nrc (.response (nrcs_process catalog ("BUSCAR_NRC|" ++ nrc)))

/-! ### Command handlers -/

/-- Does `r` carry the composite key `(sid, materia)`? (the
`r["ID_Estudiante"] == student_id and r.get("Materia") == materia` test). -/
def isPair (sid materia : String) (r : Record) : Bool :=
  r.id == sid && r.materia == materia

/-- The duplicate check of AGREGAR: `any(...)` over the loaded records. -/
def dup_exists (store : Store) (sid materia : String) : Bool :=
  store.any (isPair sid materia)

/-- `handle_agregar` of the threaded server (`src/con_hilos/server.py`):
five fields `AGREGAR|id|nombre|materia|calificacion`; NRC validation and
roster lookup happen before the lock, the duplicate check and append
inside it.  `nrcResp` is the decoded result of this call's
`consultar_nrc(materia)`.  The client-supplied `nombre` field is ignored;
the canonical roster name is echoed. -/
def handle_agregar_ch (nrcResp : NrcResp) (roster : Roster)
    (parts : List String) (store : Store) : Resp × Store :=
  match parts with
  | [_, student_id, _nombre, materia, calificacion] =>
    match nrcResp with
    | .error m => (.error ("Fallo validación NRC: " ++ m), store)
    | .notFound => (.error ("NRC no encontrado: " ++ materia), store)
    | .ok _ _ =>
      match get_estudiante_nombre roster student_id with
      | none => (.error "ID_Estudiante no encontrado en estudiantes.csv", store)
      | some nombre_canonico =>
        if dup_exists store student_id materia then
          (.error "La nota para ese ID y Materia ya existe", store)
        else
          (.ok (.row ⟨student_id, materia, calificacion, some nombre_canonico⟩),
           store ++ [⟨student_id, materia, calificacion⟩])
  | _ => (.error "Formato inválido para AGREGAR", store)

/-- `handle_agregar` of the sequential server (`src/sin_hilos/server.py`):
four fields `AGREGAR|id|materia|calificacion`, an explicit empty-id check,
a roster check — and no NRC validation at all. -/
def handle_agregar_sh (roster : Roster)
    (parts : List String) (store : Store) : Resp × Store :=
  match parts with
  | [_, student_id, materia, calificacion] =>
    if student_id == "" then
      (.error "ID_Estudiante vacío", store)
    else
      match get_estudiante_nombre roster student_id with
      | none => (.error "ID_Estudiante no encontrado en estudiantes.csv", store)
      | some nombre_canonico =>
        if dup_exists store student_id materia then
          (.error "La nota para ese ID y Materia ya existe", store)
        else
          (.ok (.row ⟨student_id, materia, calificacion, some nombre_canonico⟩),
           store ++ [⟨student_id, materia, calificacion⟩])
  | _ =>
    (.error "Formato inválido para AGREGAR. Usa: AGREGAR|ID|Materia|Calificacion",
     store)

/-- `handle_buscar` (semantically identical in both servers): filter the
store by id, `not_found` when empty, otherwise enrich each row with the
canonical name when the map lookup is truthy. -/
def handle_buscar (roster : Roster)
    (parts : List String) (store : Store) : Resp × Store :=
  match parts with
  | [_, student_id] =>
    let rows := store.filter (fun r => r.id == student_id)
    match rows with
    | [] => (.notFound "No existe el ID", store)
    | _ =>
      let nombre_canon := truthy (est_map_get roster student_id)
      (.ok (.rows (rows.map (fun r => ⟨r.id, r.materia, r.calificacion, nombre_canon⟩))),
       store)
  | _ => (.error "Formato inválido para BUSCAR", store)

/-- The in-place update loop of ACTUALIZAR: set `Calificacion` of the
first record matching `(sid, materia)` and stop (`break`); the Bool
reports whether a match was found (`updated`). -/
def update_first (sid materia cal : String) : Store → Store × Bool
  | [] => ([], false)
  | r :: rs =>
    if isPair sid materia r then
      ({ r with calificacion := cal } :: rs, true)
    else
      let p := update_first sid materia cal rs
      (r :: p.1, p.2)

/-- `handle_actualizar` (identical in both servers): the four-field form
updates the specific `(id, materia)` record; the three-field form resolves
the id's records first — none → `not_found`, several → a disambiguation
error, exactly one → update that record's materia. -/
def handle_actualizar (parts : List String) (store : Store) : Resp × Store :=
  match parts with
  | [_, student_id, materia, nueva_cal] =>
    let p := update_first student_id materia nueva_cal store
    if p.2 then
      (.ok (.row ⟨student_id, materia, nueva_cal, none⟩), p.1)
    else
      (.notFound "No existe nota para ese ID y Materia", store)
  | [_, student_id, nueva_cal] =>
    let notas := store.filter (fun r => r.id == student_id)
    match notas with
    | [] => (.notFound "No existe el ID", store)
    | [unica] =>
      let materia := unica.materia
      let p := update_first student_id materia nueva_cal store
      (.ok (.row ⟨student_id, materia, nueva_cal, none⟩), p.1)
    | _ => (.error "El ID tiene varias notas; use ACTUALIZAR|ID|Materia|nueva", store)
  | _ =>
    (.error "Formato inválido para ACTUALIZAR (use ID|nueva o ID|Materia|nueva)",
     store)

/-- `handle_listar` (identical in both servers). -/
def handle_listar (roster : Roster)
    (parts : List String) (store : Store) : Resp × Store :=
  match parts with
  | [_] => (.ok (.rows (store.map (enrich roster))), store)
  | _ => (.error "Formato inválido para LISTAR", store)

/-- The id-only deletion path of `handle_eliminar` (reached both by the
two-field request and by a three-field request whose materia is the falsy
empty string): none → `not_found`, several → a disambiguation error,
exactly one → remove that record. -/
def eliminar_solo (student_id : String) (store : Store) : Resp × Store :=
  let notas := store.filter (fun r => r.id == student_id)
  match notas with
  | [] => (.notFound "No existe el ID", store)
  | [unica] =>
    (.ok (.idMateria student_id unica.materia),
     store.filter (fun r => !(isPair student_id unica.materia r)))
  | _ =>
    (.error "El ID tiene varias notas; especifique Materia (ELIMINAR|ID|Materia)",
     store)

/-- `handle_eliminar` (identical in both servers): `materia = parts[2] if
len(parts) == 3 else None`, then `if materia:` — so an explicit non-empty
materia removes that exact pair (comparing the resulting length to detect
`not_found`), and everything else falls to the id-only path. -/
def handle_eliminar (parts : List String) (store : Store) : Resp × Store :=
  match parts with
  | [_, student_id, materia] =>
    if materia == "" then eliminar_solo student_id store
    else
      let new_records := store.filter (fun r => !(isPair student_id materia r))
      if new_records.length == store.length then
        (.notFound "No existe nota para ese ID y Materia", store)
      else
        (.ok (.idMateria student_id materia), new_records)
  | [_, student_id] => eliminar_solo student_id store
  | _ => (.error "Formato inválido para ELIMINAR (use ID o ID|Materia)", store)

/-! ### Dispatchers -/

/-- Command dispatch of the threaded server's `process_command`: match the
upper-cased first field, pass the full parts list to the handler. -/
def dispatch_ch (nrcResp : NrcResp) (roster : Roster)
    (parts : List String) (store : Store) : Resp × Store :=
  match parts with
  | [] => (.error "Comando vacío", store)
  | p0 :: _ =>
    let cmd := pyUpper p0
    if cmd == "AGREGAR" then handle_agregar_ch nrcResp roster parts store
    else if cmd == "BUSCAR" then handle_buscar roster parts store
    else if cmd == "ACTUALIZAR" then handle_actualizar parts store
    else if cmd == "LISTAR" then handle_listar roster parts store
    else if cmd == "ELIMINAR" then handle_eliminar parts store
    else (.error ("Comando desconocido: " ++ cmd), store)

/-- `process_command` of the threaded server. -/
def process_command_ch (nrcResp : NrcResp) (roster : Roster)
    (line : String) (store : Store) : Resp × Store :=
  dispatch_ch nrcResp roster (pcParse line) store

/-- Command dispatch of the sequential server's `process_command`. -/
def dispatch_sh (roster : Roster)
    (parts : List String) (store : Store) : Resp × Store :=
  match parts with
  | [] => (.error "Comando vacío", store)
  | p0 :: _ =>
    let cmd := pyUpper p0
    if cmd == "AGREGAR" then handle_agregar_sh roster parts store
    else if cmd == "BUSCAR" then handle_buscar roster parts store
    else if cmd == "ACTUALIZAR" then handle_actualizar parts store
    else if cmd == "LISTAR" then handle_listar roster parts store
    else if cmd == "ELIMINAR" then handle_eliminar parts store
    else (.error ("Comando desconocido: " ++ cmd), store)

/-- `process_command` of the sequential server. -/
def process_command_sh (roster : Roster)
    (line : String) (store : Store) : Resp × Store :=
  dispatch_sh roster (pcParse line) store

/-- Invariant I1 as an executable check: no two records of the store share
the `(ID_Estudiante, Materia)` pair. -/
def noDupPairs : Store → Bool
  | [] => true
  | r :: rs => !(rs.any (isPair r.id r.materia)) && noDupPairs rs

/-- The composite keys of a store, in order. -/
def keyList (s : Store) : List (String × String) :=
  s.map (fun r => (r.id, r.materia))

/-! ### Helper lemmas -/

theorem noDupPairs_iff (s : Store) :
    noDupPairs s = true ↔
      s.Pairwise (fun a b => ¬(a.id = b.id ∧ a.materia = b.materia)) := by
  induction s with
  | nil => simp [noDupPairs]
  | cons r rs ih =>
    simp only [noDupPairs, Bool.and_eq_true, Bool.not_eq_true',
      List.pairwise_cons, ← ih, List.any_eq_false, isPair,
      Bool.and_eq_true, beq_iff_eq]
    constructor
    · rintro ⟨h1, h2⟩
      refine ⟨fun x hx => ?_, h2⟩
      have := h1 x hx
      tauto
    · rintro ⟨h1, h2⟩
      refine ⟨fun x hx => ?_, h2⟩
      have := h1 x hx
      tauto

theorem noDupPairs_filter (s : Store) (p : Record → Bool)
    (h : noDupPairs s = true) : noDupPairs (s.filter p) = true := by
  rw [noDupPairs_iff] at h ⊢
  exact h.sublist (List.filter_sublist s)

theorem dup_exists_eq_false_iff (s : Store) (sid mat : String) :
    dup_exists s sid mat = false ↔
      ∀ r ∈ s, ¬(r.id = sid ∧ r.materia = mat) := by
  simp [dup_exists, List.any_eq_false, isPair]

theorem noDupPairs_append_single (s : Store) (sid mat cal : String)
    (h : noDupPairs s = true) (hd : dup_exists s sid mat = false) :
    noDupPairs (s ++ [Record.mk sid mat cal]) = true := by
  rw [noDupPairs_iff] at h ⊢
  rw [dup_exists_eq_false_iff] at hd
  rw [List.pairwise_append]
  refine ⟨h, by simp, fun a ha b hb => ?_⟩
  simp only [List.mem_singleton] at hb
  subst hb
  exact hd a ha

theorem update_first_keyList (sid m c : String) (s : Store) :
    keyList (update_first sid m c s).1 = keyList s := by
  induction s with
  | nil => rfl
  | cons r rs ih =>
    simp only [update_first]
    split
    · simp [keyList]
    · simp only [keyList, List.map_cons] at ih ⊢
      rw [ih]

theorem noDupPairs_of_keyList_eq (s t : Store)
    (hk : keyList s = keyList t) (h : noDupPairs t = true) :
    noDupPairs s = true := by
  rw [noDupPairs_iff] at h ⊢
  have hs : (keyList s).Pairwise (fun a b => ¬(a.1 = b.1 ∧ a.2 = b.2)) := by
    rw [hk]
    unfold keyList
    rw [List.pairwise_map]
    exact h
  unfold keyList at hs
  rw [List.pairwise_map] at hs
  exact hs

theorem noDupPairs_update_first (sid m c : String) (s : Store)
    (h : noDupPairs s = true) :
    noDupPairs (update_first sid m c s).1 = true :=
  noDupPairs_of_keyList_eq _ s (update_first_keyList sid m c s) h

/-- Every store a threaded-server AGREGAR can produce: unchanged, or the
old store with one fresh (previously absent) pair appended. -/
theorem handle_agregar_ch_store_shape (n : NrcResp) (ro : Roster)
    (parts : List String) (s : Store) :
    (handle_agregar_ch n ro parts s).2 = s ∨
    ∃ sid mat cal, dup_exists s sid mat = false ∧
      (handle_agregar_ch n ro parts s).2 = s ++ [Record.mk sid mat cal] := by
  rcases parts with _ | ⟨p0, _ | ⟨p1, _ | ⟨p2, _ | ⟨p3, _ | ⟨p4, _ | ⟨p5, rest⟩⟩⟩⟩⟩⟩
  · left; rfl
  · left; rfl
  · left; rfl
  · left; rfl
  · left; rfl
  · cases n with
    | error m => left; rfl
    | notFound => left; rfl
    | ok a b =>
      cases hg : get_estudiante_nombre ro p1 with
      | none => left; simp [handle_agregar_ch, hg]
      | some nom =>
        cases hd : dup_exists s p1 p3 with
        | false => right; exact ⟨p1, p3, p4, hd, by simp [handle_agregar_ch, hg, hd]⟩
        | true => left; simp [handle_agregar_ch, hg, hd]
  · left; rfl

/-- Every store a sequential-server AGREGAR can produce. -/
theorem handle_agregar_sh_store_shape (ro : Roster)
    (parts : List String) (s : Store) :
    (handle_agregar_sh ro parts s).2 = s ∨
    ∃ sid mat cal, dup_exists s sid mat = false ∧
      (handle_agregar_sh ro parts s).2 = s ++ [Record.mk sid mat cal] := by
  rcases parts with _ | ⟨p0, _ | ⟨p1, _ | ⟨p2, _ | ⟨p3, _ | ⟨p4, rest⟩⟩⟩⟩⟩
  · left; rfl
  · left; rfl
  · left; rfl
  · left; rfl
  · by_cases he : p1 = ""
    · left; simp [handle_agregar_sh, he]
    · cases hg : get_estudiante_nombre ro p1 with
      | none => left; simp [handle_agregar_sh, he, hg]
      | some nom =>
        cases hd : dup_exists s p1 p2 with
        | false =>
          right; exact ⟨p1, p2, p3, hd, by simp [handle_agregar_sh, he, hg, hd]⟩
        | true => left; simp [handle_agregar_sh, he, hg, hd]
  · left; rfl

/-- Every store an ACTUALIZAR can produce: unchanged, or an in-place
grade rewrite of one record. -/
theorem handle_actualizar_store_shape (parts : List String) (s : Store) :
    (handle_actualizar parts s).2 = s ∨
    ∃ sid mat cal, (handle_actualizar parts s).2 = (update_first sid mat cal s).1 := by
  rcases parts with _ | ⟨p0, _ | ⟨p1, _ | ⟨p2, _ | ⟨p3, _ | ⟨p4, rest⟩⟩⟩⟩⟩
  · left; rfl
  · left; rfl
  · left; rfl
  · -- three fields: id-only update
    rcases hn : s.filter (fun r => r.id == p1) with _ | ⟨u, _ | ⟨v, us⟩⟩
    · left; simp [handle_actualizar, hn]
    · right; exact ⟨p1, u.materia, p2, by simp [handle_actualizar, hn]⟩
    · left; simp [handle_actualizar, hn]
  · -- four fields: explicit (id, materia) update
    cases hu : (update_first p1 p2 p3 s).2 with
    | false => left; simp [handle_actualizar, hu]
    | true => right; exact ⟨p1, p2, p3, by simp [handle_actualizar, hu]⟩
  · left; rfl

/-- Every store the id-only delete path can produce. -/
theorem eliminar_solo_store_shape (sid : String) (s : Store) :
    (eliminar_solo sid s).2 = s ∨
    ∃ p, (eliminar_solo sid s).2 = s.filter p := by
  rcases hn : s.filter (fun r => r.id == sid) with _ | ⟨u, _ | ⟨v, us⟩⟩
  · left; simp [eliminar_solo, hn]
  · right
    refine ⟨fun r => !(isPair sid u.materia r), ?_⟩
    simp [eliminar_solo, hn]
  · left; simp [eliminar_solo, hn]

/-- Every store an ELIMINAR can produce: unchanged or a filtering. -/
theorem handle_eliminar_store_shape (parts : List String) (s : Store) :
    (handle_eliminar parts s).2 = s ∨
    ∃ p, (handle_eliminar parts s).2 = s.filter p := by
  rcases parts with _ | ⟨p0, _ | ⟨p1, _ | ⟨p2, _ | ⟨p3, rest⟩⟩⟩⟩
  · left; rfl
  · left; rfl
  · -- two fields
    have := eliminar_solo_store_shape p1 s
    simpa [handle_eliminar] using this
  · -- three fields
    by_cases he : p2 = ""
    · have := eliminar_solo_store_shape p1 s
      simpa [handle_eliminar, he] using this
    · cases hl : ((s.filter (fun r => !(isPair p1 p2 r))).length == s.length) with
      | true => left; simp [handle_eliminar, he, hl]
      | false =>
        right
        refine ⟨fun r => !(isPair p1 p2 r), ?_⟩
        simp [handle_eliminar, he, hl]
  · left; rfl

/-! ### Claim theorems -/

/-- C1: store-uniqueness invariant I1.  Whenever the store has no two
records sharing an `(ID_Estudiante, Materia)` pair, every command handler
(AGREGAR in both server variants, both forms of ACTUALIZAR, both forms of
ELIMINAR) yields a store that still has no such duplicate; and an AGREGAR
whose pair is already present (here in the threaded server, with the NRC
and roster validations passing) returns the duplicate error and leaves
the store unchanged. -/
theorem c1_store_uniqueness (nrcResp : NrcResp) (roster : Roster)
    (parts : List String) (store : Store) (h : noDupPairs store = true) :
    noDupPairs (handle_agregar_ch nrcResp roster parts store).2 = true ∧
    noDupPairs (handle_agregar_sh roster parts store).2 = true ∧
    noDupPairs (handle_actualizar parts store).2 = true ∧
    noDupPairs (handle_eliminar parts store).2 = true ∧
    (∀ head sid nombreArg materia cal nrc mat nom,
      nrcResp = .ok nrc mat →
      get_estudiante_nombre roster sid = some nom →
      dup_exists store sid materia = true →
      handle_agregar_ch nrcResp roster [head, sid, nombreArg, materia, cal] store
        = (.error "La nota para ese ID y Materia ya existe", store)) := by
  refine ⟨?_, ?_, ?_, ?_, ?_⟩
  · rcases handle_agregar_ch_store_shape nrcResp roster parts store with hs | ⟨sid, mat, cal, hd, hs⟩
    · rw [hs]; exact h
    · rw [hs]; exact noDupPairs_append_single store sid mat cal h hd
  · rcases handle_agregar_sh_store_shape roster parts store with hs | ⟨sid, mat, cal, hd, hs⟩
    · rw [hs]; exact h
    · rw [hs]; exact noDupPairs_append_single store sid mat cal h hd
  · rcases handle_actualizar_store_shape parts store with hs | ⟨sid, mat, cal, hs⟩
    · rw [hs]; exact h
    · rw [hs]; exact noDupPairs_update_first sid mat cal store h
  · rcases handle_eliminar_store_shape parts store with hs | ⟨p, hs⟩
    · rw [hs]; exact h
    · rw [hs]; exact noDupPairs_filter store p h
  · intro head sid nombreArg materia cal nrc mat nom hn hg hd
    subst hn
    simp [handle_agregar_ch, hg, hd]

/-- Witness for C1 at a concrete duplicate insert. -/
theorem c1_store_uniqueness_witness :
    noDupPairs [Record.mk "S1" "MAT101" "10"] = true ∧
    handle_agregar_ch (.ok "MAT101" "x") [("S1", "Ana")]
        ["AGREGAR", "S1", "Ana", "MAT101", "9"] [Record.mk "S1" "MAT101" "10"]
      = (.error "La nota para ese ID y Materia ya existe",
         [Record.mk "S1" "MAT101" "10"]) :=
  ⟨by decide,
   (c1_store_uniqueness (.ok "MAT101" "x") [("S1", "Ana")]
      ["AGREGAR", "S1", "Ana", "MAT101", "9"] [Record.mk "S1" "MAT101" "10"]
      (by decide)).2.2.2.2 "AGREGAR" "S1" "Ana" "MAT101" "9" "MAT101" "x" "Ana"
      rfl (by decide) (by decide)⟩

theorem filter_isPair_eq_nil {s : Store} {sid mat : String}
    (hd : dup_exists s sid mat = false) :
    s.filter (isPair sid mat) = [] := by
  rw [List.filter_eq_nil_iff]
  intro a ha
  have := (List.any_eq_false.mp hd) a ha
  simpa using this

/-- C2: first-committer-wins.  `CSV_LOCK` makes each AGREGAR critical
section (load → duplicate check → append → save) atomic, so two
concurrent AGREGARs for the same `(ID_Estudiante, Materia)` execute as
one of the two serializations; this theorem covers an arbitrary
serialization order (the two requests' grades, client-supplied names and
NRC replies are quantified symmetrically).  Starting from a store without
the pair, and with roster and NRC validation passing, the first committer
gets `ok`, the second gets the duplicate error, and the final store holds
exactly one record for the pair. -/
theorem c2_first_committer_wins (roster : Roster) (store : Store)
    (sid materia n1 m1 n2 m2 nomA nomB calA calB nom : String)
    (hg : get_estudiante_nombre roster sid = some nom)
    (hd : dup_exists store sid materia = false) :
    handle_agregar_ch (.ok n1 m1) roster ["AGREGAR", sid, nomA, materia, calA] store
      = (.ok (.row ⟨sid, materia, calA, some nom⟩),
         store ++ [Record.mk sid materia calA]) ∧
    handle_agregar_ch (.ok n2 m2) roster ["AGREGAR", sid, nomB, materia, calB]
        (store ++ [Record.mk sid materia calA])
      = (.error "La nota para ese ID y Materia ya existe",
         store ++ [Record.mk sid materia calA]) ∧
    ((store ++ [Record.mk sid materia calA]).filter (isPair sid materia)).length = 1 := by
  have hd2 : dup_exists (store ++ [Record.mk sid materia calA]) sid materia = true := by
    simp [dup_exists, List.any_append, isPair]
  refine ⟨?_, ?_, ?_⟩
  · simp [handle_agregar_ch, hg, hd]
  · simp [handle_agregar_ch, hg, hd2]
  · rw [List.filter_append, filter_isPair_eq_nil hd]
    simp [isPair]

/-- Witness for C2 with a concrete race on `(S1, MAT101)`. -/
theorem c2_first_committer_wins_witness :
    handle_agregar_ch (.ok "MAT101" "x") [("S1", "Ana")]
        ["AGREGAR", "S1", "Ana", "MAT101", "8"] []
      = (.ok (.row ⟨"S1", "MAT101", "8", some "Ana"⟩),
         [Record.mk "S1" "MAT101" "8"]) ∧
    handle_agregar_ch (.ok "MAT101" "x") [("S1", "Ana")]
        ["AGREGAR", "S1", "Ana", "MAT101", "9"] [Record.mk "S1" "MAT101" "8"]
      = (.error "La nota para ese ID y Materia ya existe",
         [Record.mk "S1" "MAT101" "8"]) ∧
    ([Record.mk "S1" "MAT101" "8"].filter (isPair "S1" "MAT101")).length = 1 := by
  have := c2_first_committer_wins [("S1", "Ana")] [] "S1" "MAT101"
    "MAT101" "x" "MAT101" "x" "Ana" "Ana" "8" "9" "Ana" (by decide) (by decide)
  simpa using this

/-- C3, counterexample: the claim asserts the catalog gate for *both*
variants, but the sequential server's `handle_agregar` never consults the
NRC service.  Concretely: the live catalog holds only `MAT101`, so its
`process` answers `not_found` for `NOPE`, yet the sequential AGREGAR of
`(S1, NOPE)` succeeds and appends to the store. -/
theorem c3_counterexample :
    nrcs_process [("MAT101", "Matemáticas I")] "BUSCAR_NRC|NOPE" = .notFound ∧
    handle_agregar_sh [("S1", "Ana")] ["AGREGAR", "S1", "NOPE", "10"] []
      = (.ok (.row ⟨"S1", "NOPE", "10", some "Ana"⟩),
         [Record.mk "S1" "NOPE" "10"]) := by
  decide

/-- C3, amended: in the *concurrent* variant only, every AGREGAR performs
a fresh `BUSCAR_NRC` round trip against the live catalog service
(`consultar_live` composes `consultar_nrc` with the catalog's `process`
on its current state — nothing is cached), and whenever that lookup
reports the code not found the insert fails and the store is unchanged;
the sequential variant performs no catalog validation at all. -/
theorem c3_catalog_gate_concurrent (catalog : List (String × String))
    (roster : Roster) (store : Store) (head sid nombreArg materia cal : String)
    (hnf : consultar_live catalog materia = .notFound) :
    handle_agregar_ch (consultar_live catalog materia) roster
        [head, sid, nombreArg, materia, cal] store
      = (.error ("NRC no encontrado: " ++ materia), store) := by
  rw [hnf]
  rfl

/-- Witness for the amended C3 on a concrete missing code. -/
theorem c3_catalog_gate_concurrent_witness :
    consultar_live [("MAT101", "Matemáticas I")] "NOPE" = .notFound ∧
    handle_agregar_ch (consultar_live [("MAT101", "Matemáticas I")] "NOPE")
        [("S1", "Ana")] ["AGREGAR", "S1", "Ana", "NOPE", "10"] []
      = (.error ("NRC no encontrado: " ++ "NOPE"), []) :=
  ⟨by decide,
   c3_catalog_gate_concurrent [("MAT101", "Matemáticas I")] [("S1", "Ana")] []
     "AGREGAR" "S1" "Ana" "NOPE" "10" (by decide)⟩

theorem handle_agregar_ch_arity (n : NrcResp) (ro : Roster)
    (parts : List String) (s : Store) (h : parts.length ≠ 5) :
    handle_agregar_ch n ro parts s = (.error "Formato inválido para AGREGAR", s) := by
  rcases parts with _ | ⟨p0, _ | ⟨p1, _ | ⟨p2, _ | ⟨p3, _ | ⟨p4, _ | ⟨p5, rest⟩⟩⟩⟩⟩⟩ <;>
    simp_all [handle_agregar_ch]

theorem handle_agregar_sh_arity (ro : Roster)
    (parts : List String) (s : Store) (h : parts.length ≠ 4) :
    handle_agregar_sh ro parts s
      = (.error "Formato inválido para AGREGAR. Usa: AGREGAR|ID|Materia|Calificacion", s) := by
  rcases parts with _ | ⟨p0, _ | ⟨p1, _ | ⟨p2, _ | ⟨p3, _ | ⟨p4, rest⟩⟩⟩⟩⟩ <;>
    simp_all [handle_agregar_sh]

/-- C4, counterexample: the claim's three-argument Insert signature is
the sequential server's; the threaded server requires the four-argument
form `AGREGAR|id|nombre|materia|calificacion` and rejects the line
`AGREGAR|S1|MAT101|10` (command plus exactly three fields) with a format
error instead of proceeding. -/
theorem c4_counterexample :
    process_command_ch (.ok "MAT101" "Matemáticas I") [("S1", "Ana")]
        "AGREGAR|S1|MAT101|10" []
      = (.error "Formato inválido para AGREGAR", []) := by
  decide

/-- C4, amended: the sequential AGREGAR takes exactly the three arguments
`student_id, subject_code, grade` (any other count is a format error that
leaves the store alone), while the threaded AGREGAR takes exactly four —
`student_id, display_name, subject_code, grade` — the extra display-name
argument being ignored in favour of the roster name; with exactly the
required count both proceed, and on success both echo the stored record
plus the resolved display name. -/
theorem c4_insert_signature (nrcResp : NrcResp) (roster : Roster)
    (store : Store) (parts : List String) :
    (parts.length ≠ 4 →
      handle_agregar_sh roster parts store
        = (.error "Formato inválido para AGREGAR. Usa: AGREGAR|ID|Materia|Calificacion",
           store)) ∧
    (parts.length ≠ 5 →
      handle_agregar_ch nrcResp roster parts store
        = (.error "Formato inválido para AGREGAR", store)) ∧
    (∀ head sid materia cal nom nrc mat,
      sid ≠ "" →
      get_estudiante_nombre roster sid = some nom →
      dup_exists store sid materia = false →
      handle_agregar_sh roster [head, sid, materia, cal] store
        = (.ok (.row ⟨sid, materia, cal, some nom⟩),
           store ++ [Record.mk sid materia cal]) ∧
      (∀ nombreArg,
        nrcResp = .ok nrc mat →
        handle_agregar_ch nrcResp roster [head, sid, nombreArg, materia, cal] store
          = (.ok (.row ⟨sid, materia, cal, some nom⟩),
             store ++ [Record.mk sid materia cal]))) := by
  refine ⟨handle_agregar_sh_arity roster parts store,
          handle_agregar_ch_arity nrcResp roster parts store, ?_⟩
  intro head sid materia cal nom nrc mat hsid hg hd
  constructor
  · simp [handle_agregar_sh, hsid, hg, hd]
  · intro nombreArg hn
    subst hn
    simp [handle_agregar_ch, hg, hd]

/-- Witness for the amended C4 at a concrete three-argument insert. -/
theorem c4_insert_signature_witness :
    handle_agregar_sh [("S1", "Ana")] ["AGREGAR", "S1", "MAT101", "10"] []
      = (.ok (.row ⟨"S1", "MAT101", "10", some "Ana"⟩),
         [Record.mk "S1" "MAT101" "10"]) ∧
    handle_agregar_ch (.ok "MAT101" "x") [("S1", "Ana")]
        ["AGREGAR", "S1", "IGNORADO", "MAT101", "10"] []
      = (.ok (.row ⟨"S1", "MAT101", "10", some "Ana"⟩),
         [Record.mk "S1" "MAT101" "10"]) := by
  have := ((c4_insert_signature (.ok "MAT101" "x") [("S1", "Ana")] [] []).2.2
    "AGREGAR" "S1" "MAT101" "10" "Ana" "MAT101" "x"
    (by decide) (by decide) (by decide))
  exact ⟨this.1, this.2 "IGNORADO" rfl⟩

theorem update_first_found {sid m cal : String} {s : Store}
    (hx : ∃ r ∈ s, isPair sid m r = true) :
    (update_first sid m cal s).2 = true := by
  induction s with
  | nil => simp at hx
  | cons r rs ih =>
    obtain ⟨x, hx1, hx2⟩ := hx
    by_cases hr : isPair sid m r = true
    · simp [update_first, hr]
    · rcases List.mem_cons.mp hx1 with rfl | hmem
      · exact absurd hx2 hr
      · simp only [update_first, if_neg hr]
        exact ih ⟨x, hmem, hx2⟩

theorem filter_length_ne {p : Record → Bool} {s : Store} {u : Record}
    (hu : u ∈ s) (hpu : p u = false) : (s.filter p).length ≠ s.length := by
  intro hl
  have heq : s.filter p = s := (List.filter_sublist s).eq_of_length hl
  have hm : u ∈ s.filter p := by rw [heq]; exact hu
  rw [List.mem_filter, hpu] at hm
  exact absurd hm.2 (by simp)

/-- C5: single-argument disambiguation.  When an id owns strictly more
than one record, one-argument ACTUALIZAR and one-argument ELIMINAR both
answer the disambiguation error and leave the store alone; when the id
owns exactly one record `u`, the one-argument forms produce exactly the
same response and store as the explicit forms invoked with `u.materia`. -/
theorem c5_single_arg_disambiguation (store : Store) (head sid cal : String) :
    ((store.filter (fun r => r.id == sid)).length > 1 →
      handle_actualizar [head, sid, cal] store
        = (.error "El ID tiene varias notas; use ACTUALIZAR|ID|Materia|nueva",
           store) ∧
      handle_eliminar [head, sid] store
        = (.error "El ID tiene varias notas; especifique Materia (ELIMINAR|ID|Materia)",
           store)) ∧
    (∀ u : Record, store.filter (fun r => r.id == sid) = [u] →
      handle_actualizar [head, sid, cal] store
        = handle_actualizar [head, sid, u.materia, cal] store ∧
      handle_eliminar [head, sid] store
        = handle_eliminar [head, sid, u.materia] store) := by
  constructor
  · intro hlen
    rcases hn : store.filter (fun r => r.id == sid) with _ | ⟨a, _ | ⟨b, l⟩⟩ <;>
      rw [hn] at hlen
    · simp at hlen
    · simp at hlen
    · exact ⟨by simp [handle_actualizar, hn],
             by simp [handle_eliminar, eliminar_solo, hn]⟩
  · intro u hn
    have humem : u ∈ store ∧ (u.id == sid) = true := by
      have : u ∈ store.filter (fun r => r.id == sid) := by simp [hn]
      exact List.mem_filter.mp this
    have hpair : isPair sid u.materia u = true := by
      simp [isPair, humem.2]
    constructor
    · have hfound : (update_first sid u.materia cal store).2 = true :=
        update_first_found ⟨u, humem.1, hpair⟩
      simp [handle_actualizar, hn, hfound]
    · by_cases hm : u.materia = ""
      · simp [handle_eliminar, hm, eliminar_solo, hn]
      · have hne : ((store.filter (fun r => !(isPair sid u.materia r))).length
            == store.length) = false := by
          rw [beq_eq_false_iff_ne]
          exact filter_length_ne humem.1 (by simp [hpair])
        simp [handle_eliminar, hm, hne, eliminar_solo, hn]

/-- Witness for C5: a two-record id is rejected with the disambiguation
error, and on a one-record id the 1-arg and 2-arg deletes coincide. -/
theorem c5_single_arg_disambiguation_witness :
    handle_actualizar ["ACTUALIZAR", "S1", "9"]
        [Record.mk "S1" "A" "1", Record.mk "S1" "B" "2"]
      = (.error "El ID tiene varias notas; use ACTUALIZAR|ID|Materia|nueva",
         [Record.mk "S1" "A" "1", Record.mk "S1" "B" "2"]) ∧
    handle_eliminar ["ELIMINAR", "S1"] [Record.mk "S1" "A" "1"]
      = handle_eliminar ["ELIMINAR", "S1", "A"] [Record.mk "S1" "A" "1"] :=
  ⟨((c5_single_arg_disambiguation
      [Record.mk "S1" "A" "1", Record.mk "S1" "B" "2"] "ACTUALIZAR" "S1" "9").1
      (by decide)).1,
   ((c5_single_arg_disambiguation [Record.mk "S1" "A" "1"] "ELIMINAR" "S1" "9").2
      (Record.mk "S1" "A" "1") (by decide)).2⟩

theorem handle_buscar_arity (ro : Roster) (parts : List String) (s : Store)
    (h : parts.length ≠ 2) :
    handle_buscar ro parts s = (.error "Formato inválido para BUSCAR", s) := by
  rcases parts with _ | ⟨p0, _ | ⟨p1, rest⟩⟩ <;> simp_all [handle_buscar]

theorem handle_actualizar_arity (parts : List String) (s : Store)
    (h3 : parts.length ≠ 3) (h4 : parts.length ≠ 4) :
    handle_actualizar parts s
      = (.error "Formato inválido para ACTUALIZAR (use ID|nueva o ID|Materia|nueva)", s) := by
  rcases parts with _ | ⟨p0, _ | ⟨p1, _ | ⟨p2, _ | ⟨p3, _ | ⟨p4, rest⟩⟩⟩⟩⟩ <;>
    simp_all [handle_actualizar]

theorem handle_listar_arity (ro : Roster) (parts : List String) (s : Store)
    (h : parts.length ≠ 1) :
    handle_listar ro parts s = (.error "Formato inválido para LISTAR", s) := by
  rcases parts with _ | ⟨p0, rest⟩ <;> simp_all [handle_listar]

theorem handle_eliminar_arity (parts : List String) (s : Store)
    (h2 : parts.length ≠ 2) (h3 : parts.length ≠ 3) :
    handle_eliminar parts s
      = (.error "Formato inválido para ELIMINAR (use ID o ID|Materia)", s) := by
  rcases parts with _ | ⟨p0, _ | ⟨p1, _ | ⟨p2, _ | ⟨p3, rest⟩⟩⟩⟩ <;>
    simp_all [handle_eliminar]

/-- The five command names the dispatchers recognise. -/
def knownCmd (cmd : String) : Bool :=
  cmd = "AGREGAR" || cmd = "BUSCAR" || cmd = "ACTUALIZAR" ||
    cmd = "LISTAR" || cmd = "ELIMINAR"

/-- Field counts each threaded-server handler accepts
(`AGREGAR|id|nombre|materia|calificacion` needs five fields). -/
def arity_ok_ch (cmd : String) (n : Nat) : Bool :=
  if cmd = "AGREGAR" then n = 5
  else if cmd = "BUSCAR" then n = 2
  else if cmd = "ACTUALIZAR" then n = 3 || n = 4
  else if cmd = "LISTAR" then n = 1
  else if cmd = "ELIMINAR" then n = 2 || n = 3
  else false

/-- Field counts each sequential-server handler accepts
(`AGREGAR|id|materia|calificacion` needs four fields). -/
def arity_ok_sh (cmd : String) (n : Nat) : Bool :=
  if cmd = "AGREGAR" then n = 4
  else if cmd = "BUSCAR" then n = 2
  else if cmd = "ACTUALIZAR" then n = 3 || n = 4
  else if cmd = "LISTAR" then n = 1
  else if cmd = "ELIMINAR" then n = 2 || n = 3
  else false

/-- A parsed request is malformed when it is empty, names an unknown
command, or carries the wrong number of fields for its command. -/
def malformedParts_ch (parts : List String) : Bool :=
  match parts with
  | [] => true
  | p0 :: _ => !(knownCmd (pyUpper p0) && arity_ok_ch (pyUpper p0) parts.length)

def malformedParts_sh (parts : List String) : Bool :=
  match parts with
  | [] => true
  | p0 :: _ => !(knownCmd (pyUpper p0) && arity_ok_sh (pyUpper p0) parts.length)

/-- A malformed input line for the threaded server: empty after
stripping, unknown command, or wrong argument count. -/
def malformed_ch (line : String) : Bool := malformedParts_ch (pcParse line)

/-- A malformed input line for the sequential server. -/
def malformed_sh (line : String) : Bool := malformedParts_sh (pcParse line)

theorem dispatch_ch_malformed (n : NrcResp) (ro : Roster)
    (parts : List String) (s s' : Store)
    (h : malformedParts_ch parts = true) :
    ∃ m, dispatch_ch n ro parts s = (.error m, s) ∧
         dispatch_ch n ro parts s' = (.error m, s') := by
  rcases parts with _ | ⟨p0, rest⟩
  · exact ⟨"Comando vacío", rfl, rfl⟩
  · simp only [malformedParts_ch, Bool.not_eq_true'] at h
    by_cases hA : pyUpper p0 = "AGREGAR"
    · have ha : arity_ok_ch (pyUpper p0) (p0 :: rest).length = false := by
        cases hx : arity_ok_ch (pyUpper p0) (p0 :: rest).length
        · rfl
        · rw [hx] at h
          simp [knownCmd, hA] at h
      rw [hA] at ha
      have hl : (p0 :: rest).length ≠ 5 := by
        intro he; rw [he] at ha; simp [arity_ok_ch] at ha
      exact ⟨_, by simp only [dispatch_ch, hA, if_pos rfl, if_pos];
                   exact handle_agregar_ch_arity n ro _ s hl,
             by simp only [dispatch_ch, hA, if_pos rfl, if_pos];
                exact handle_agregar_ch_arity n ro _ s' hl⟩
    · by_cases hB : pyUpper p0 = "BUSCAR"
      · have ha : arity_ok_ch (pyUpper p0) (p0 :: rest).length = false := by
          cases hx : arity_ok_ch (pyUpper p0) (p0 :: rest).length
          · rfl
          · rw [hx] at h
            simp [knownCmd, hB] at h
        rw [hB] at ha
        have hl : (p0 :: rest).length ≠ 2 := by
          intro he; rw [he] at ha; simp [arity_ok_ch] at ha
        refine ⟨"Formato inválido para BUSCAR", ?_, ?_⟩ <;>
          · simp only [dispatch_ch, hA, hB, if_neg, if_pos rfl]
            first
              | exact handle_buscar_arity ro _ s hl
              | exact handle_buscar_arity ro _ s' hl
      · by_cases hC : pyUpper p0 = "ACTUALIZAR"
        · have ha : arity_ok_ch (pyUpper p0) (p0 :: rest).length = false := by
            cases hx : arity_ok_ch (pyUpper p0) (p0 :: rest).length
            · rfl
            · rw [hx] at h
              simp [knownCmd, hC] at h
          rw [hC] at ha
          have hl : (p0 :: rest).length ≠ 3 ∧ (p0 :: rest).length ≠ 4 := by
            constructor <;> intro he <;> rw [he] at ha <;> simp [arity_ok_ch] at ha
          refine ⟨"Formato inválido para ACTUALIZAR (use ID|nueva o ID|Materia|nueva)",
                  ?_, ?_⟩ <;>
            · simp only [dispatch_ch, hA, hB, hC, if_neg, if_pos rfl]
              first
                | exact handle_actualizar_arity _ s hl.1 hl.2
                | exact handle_actualizar_arity _ s' hl.1 hl.2
        · by_cases hD : pyUpper p0 = "LISTAR"
          · have ha : arity_ok_ch (pyUpper p0) (p0 :: rest).length = false := by
              cases hx : arity_ok_ch (pyUpper p0) (p0 :: rest).length
              · rfl
              · rw [hx] at h
                simp [knownCmd, hD] at h
            rw [hD] at ha
            have hl : (p0 :: rest).length ≠ 1 := by
              intro he; rw [he] at ha; simp [arity_ok_ch] at ha
            refine ⟨"Formato inválido para LISTAR", ?_, ?_⟩ <;>
              · simp only [dispatch_ch, hA, hB, hC, hD, if_neg, if_pos rfl]
                first
                  | exact handle_listar_arity ro _ s hl
                  | exact handle_listar_arity ro _ s' hl
          · by_cases hE : pyUpper p0 = "ELIMINAR"
            · have ha : arity_ok_ch (pyUpper p0) (p0 :: rest).length = false := by
                cases hx : arity_ok_ch (pyUpper p0) (p0 :: rest).length
                · rfl
                · rw [hx] at h
                  simp [knownCmd, hE] at h
              rw [hE] at ha
              have hl : (p0 :: rest).length ≠ 2 ∧ (p0 :: rest).length ≠ 3 := by
                constructor <;> intro he <;> rw [he] at ha <;>
                  simp [arity_ok_ch] at ha
              refine ⟨"Formato inválido para ELIMINAR (use ID o ID|Materia)",
                      ?_, ?_⟩ <;>
                · simp only [dispatch_ch, hA, hB, hC, hD, hE, if_neg, if_pos rfl]
                  first
                    | exact handle_eliminar_arity _ s hl.1 hl.2
                    | exact handle_eliminar_arity _ s' hl.1 hl.2
            · refine ⟨"Comando desconocido: " ++ pyUpper p0, ?_, ?_⟩ <;>
                simp [dispatch_ch, hA, hB, hC, hD, hE]

theorem dispatch_sh_malformed (ro : Roster)
    (parts : List String) (s s' : Store)
    (h : malformedParts_sh parts = true) :
    ∃ m, dispatch_sh ro parts s = (.error m, s) ∧
         dispatch_sh ro parts s' = (.error m, s') := by
  rcases parts with _ | ⟨p0, rest⟩
  · exact ⟨"Comando vacío", rfl, rfl⟩
  · simp only [malformedParts_sh, Bool.not_eq_true'] at h
    by_cases hA : pyUpper p0 = "AGREGAR"
    · have ha : arity_ok_sh (pyUpper p0) (p0 :: rest).length = false := by
        cases hx : arity_ok_sh (pyUpper p0) (p0 :: rest).length
        · rfl
        · rw [hx] at h
          simp [knownCmd, hA] at h
      rw [hA] at ha
      have hl : (p0 :: rest).length ≠ 4 := by
        intro he; rw [he] at ha; simp [arity_ok_sh] at ha
      exact ⟨_, by simp only [dispatch_sh, hA, if_pos rfl, if_pos];
                   exact handle_agregar_sh_arity ro _ s hl,
             by simp only [dispatch_sh, hA, if_pos rfl, if_pos];
                exact handle_agregar_sh_arity ro _ s' hl⟩
    · by_cases hB : pyUpper p0 = "BUSCAR"
      · have ha : arity_ok_sh (pyUpper p0) (p0 :: rest).length = false := by
          cases hx : arity_ok_sh (pyUpper p0) (p0 :: rest).length
          · rfl
          · rw [hx] at h
            simp [knownCmd, hB] at h
        rw [hB] at ha
        have hl : (p0 :: rest).length ≠ 2 := by
          intro he; rw [he] at ha; simp [arity_ok_sh] at ha
        refine ⟨"Formato inválido para BUSCAR", ?_, ?_⟩ <;>
          · simp only [dispatch_sh, hA, hB, if_neg, if_pos rfl]
            first
              | exact handle_buscar_arity ro _ s hl
              | exact handle_buscar_arity ro _ s' hl
      · by_cases hC : pyUpper p0 = "ACTUALIZAR"
        · have ha : arity_ok_sh (pyUpper p0) (p0 :: rest).length = false := by
            cases hx : arity_ok_sh (pyUpper p0) (p0 :: rest).length
            · rfl
            · rw [hx] at h
              simp [knownCmd, hC] at h
          rw [hC] at ha
          have hl : (p0 :: rest).length ≠ 3 ∧ (p0 :: rest).length ≠ 4 := by
            constructor <;> intro he <;> rw [he] at ha <;> simp [arity_ok_sh] at ha
          refine ⟨"Formato inválido para ACTUALIZAR (use ID|nueva o ID|Materia|nueva)",
                  ?_, ?_⟩ <;>
            · simp only [dispatch_sh, hA, hB, hC, if_neg, if_pos rfl]
              first
                | exact handle_actualizar_arity _ s hl.1 hl.2
                | exact handle_actualizar_arity _ s' hl.1 hl.2
        · by_cases hD : pyUpper p0 = "LISTAR"
          · have ha : arity_ok_sh (pyUpper p0) (p0 :: rest).length = false := by
              cases hx : arity_ok_sh (pyUpper p0) (p0 :: rest).length
              · rfl
              · rw [hx] at h
                simp [knownCmd, hD] at h
            rw [hD] at ha
            have hl : (p0 :: rest).length ≠ 1 := by
              intro he; rw [he] at ha; simp [arity_ok_sh] at ha
            refine ⟨"Formato inválido para LISTAR", ?_, ?_⟩ <;>
              · simp only [dispatch_sh, hA, hB, hC, hD, if_neg, if_pos rfl]
                first
                  | exact handle_listar_arity ro _ s hl
                  | exact handle_listar_arity ro _ s' hl
          · by_cases hE : pyUpper p0 = "ELIMINAR"
            · have ha : arity_ok_sh (pyUpper p0) (p0 :: rest).length = false := by
                cases hx : arity_ok_sh (pyUpper p0) (p0 :: rest).length
                · rfl
                · rw [hx] at h
                  simp [knownCmd, hE] at h
              rw [hE] at ha
              have hl : (p0 :: rest).length ≠ 2 ∧ (p0 :: rest).length ≠ 3 := by
                constructor <;> intro he <;> rw [he] at ha <;>
                  simp [arity_ok_sh] at ha
              refine ⟨"Formato inválido para ELIMINAR (use ID o ID|Materia)",
                      ?_, ?_⟩ <;>
                · simp only [dispatch_sh, hA, hB, hC, hD, hE, if_neg, if_pos rfl]
                  first
                    | exact handle_eliminar_arity _ s hl.1 hl.2
                    | exact handle_eliminar_arity _ s' hl.1 hl.2
            · refine ⟨"Comando desconocido: " ++ pyUpper p0, ?_, ?_⟩ <;>
                simp [dispatch_sh, hA, hB, hC, hD, hE]

/-- C6: malformed requests never touch the store.  For every input line
that is empty after stripping, names an unknown command, or invokes a
known command with a wrong field count, both servers' `process_command`
answer a status-error response, the store is returned unchanged, and the
response message is the same whatever the store contents (the store is
not consulted for the decision). -/
theorem c6_malformed_never_touches_store (nrcResp : NrcResp) (roster : Roster)
    (line : String) (store store' : Store) :
    (malformed_ch line = true →
      ∃ m, process_command_ch nrcResp roster line store = (.error m, store) ∧
           process_command_ch nrcResp roster line store' = (.error m, store')) ∧
    (malformed_sh line = true →
      ∃ m, process_command_sh roster line store = (.error m, store) ∧
           process_command_sh roster line store' = (.error m, store')) :=
  ⟨fun h => dispatch_ch_malformed nrcResp roster (pcParse line) store store' h,
   fun h => dispatch_sh_malformed roster (pcParse line) store store' h⟩

/-- Witness for C6 on concrete malformed lines: an unknown command and a
wrong-arity BUSCAR, each against two different stores. -/
theorem c6_malformed_never_touches_store_witness :
    (∃ m, process_command_ch (.ok "a" "b") [] "FOO|1" []
            = (.error m, []) ∧
          process_command_ch (.ok "a" "b") [] "FOO|1" [Record.mk "X" "Y" "Z"]
            = (.error m, [Record.mk "X" "Y" "Z"])) ∧
    (∃ m, process_command_sh [] "BUSCAR|a|b" []
            = (.error m, []) ∧
          process_command_sh [] "BUSCAR|a|b" [Record.mk "X" "Y" "Z"]
            = (.error m, [Record.mk "X" "Y" "Z"])) :=
  ⟨(c6_malformed_never_touches_store (.ok "a" "b") [] "FOO|1"
      [] [Record.mk "X" "Y" "Z"]).1 (by decide),
   (c6_malformed_never_touches_store (.ok "a" "b") [] "BUSCAR|a|b"
      [] [Record.mk "X" "Y" "Z"]).2 (by decide)⟩

/-- C7: totality and error taxonomy of the validation client.
`consultar_nrc` is a total function of the observable socket outcome (the
code bounds the wait with a 3-second socket timeout and catches every
exception, so each invocation yields exactly one of these outcomes):
connection failure, timeout, empty response and a non-JSON response line
each produce a `status: error` result carrying a message, and a decoded
catalog reply is passed through unchanged — so the catalog's own
`not_found` verdict is never confused with a transport error. -/
theorem c7_validation_client_taxonomy (e raw : String) (r : NrcResp) :
    (∃ m, consultar_nrc (.connError e) = .error m) ∧
    (∃ m, consultar_nrc (.timeoutErr e) = .error m) ∧
    (∃ m, consultar_nrc .noData = .error m) ∧
    (∃ m, consultar_nrc (.badJson raw) = .error m) ∧
    consultar_nrc (.response r) = r ∧
    (∀ m, consultar_nrc (.response .notFound) ≠ .error m) := by
  refine ⟨⟨_, rfl⟩, ⟨_, rfl⟩, ⟨_, rfl⟩, ⟨_, rfl⟩, rfl, ?_⟩
  intro m h
  simp [consultar_nrc] at h

theorem update_first_append_no_match {sid m cal : String} {l1 l2 : Store}
    (h : ∀ r ∈ l1, isPair sid m r = false) :
    update_first sid m cal (l1 ++ l2)
      = (l1 ++ (update_first sid m cal l2).1, (update_first sid m cal l2).2) := by
  induction l1 with
  | nil => simp
  | cons x xs ih =>
    have hx : isPair sid m x = false := h x (List.mem_cons_self x xs)
    have ih' := ih (fun r hr => h r (List.mem_cons_of_mem x hr))
    simp [update_first, hx, ih']

theorem filter_id_eq_nil {s : Store} {sid : String}
    (h : ∀ r ∈ s, r.id ≠ sid) :
    s.filter (fun r => r.id == sid) = [] := by
  rw [List.filter_eq_nil_iff]
  intro a ha
  simpa using h a ha

theorem dup_exists_false_of_no_id {s : Store} {sid mat : String}
    (h : ∀ r ∈ s, r.id ≠ sid) : dup_exists s sid mat = false := by
  rw [dup_exists_eq_false_iff]
  intro r hr hc
  exact absurd hc.1 (h r hr)

theorem filter_not_pair_append {s : Store} {sid mat : String}
    (h : ∀ r ∈ s, r.id ≠ sid) (u : Record) (hu : isPair sid mat u = true) :
    (s ++ [u]).filter (fun r => !(isPair sid mat r)) = s := by
  rw [List.filter_append]
  have h1 : s.filter (fun r => !(isPair sid mat r)) = s := by
    rw [List.filter_eq_self]
    intro a ha
    simp only [Bool.not_eq_true', isPair, Bool.and_eq_false_iff, beq_eq_false_iff_ne]
    exact Or.inl (h a ha)
  rw [h1]
  simp [hu]

/-- C8: read-after-write sequence (threaded-server handlers).  From a
store with no record for `S1` and `S1` resolvable in the roster, a
successful AGREGAR of `(S1, C1, G)` makes BUSCAR return `ok` with exactly
one record whose grade is `G`; an ACTUALIZAR of that record to `G2` makes
BUSCAR return that single record with grade `G2`; an ELIMINAR of it
restores the original store, on which BUSCAR answers `not_found`. -/
theorem c8_read_after_write (roster : Roster) (store : Store)
    (S1 C1 G G2 nom nrc mat nombreArg : String)
    (hstore : ∀ r ∈ store, r.id ≠ S1)
    (hg : get_estudiante_nombre roster S1 = some nom) :
    handle_agregar_ch (.ok nrc mat) roster ["AGREGAR", S1, nombreArg, C1, G] store
      = (.ok (.row ⟨S1, C1, G, some nom⟩), store ++ [Record.mk S1 C1 G]) ∧
    handle_buscar roster ["BUSCAR", S1] (store ++ [Record.mk S1 C1 G])
      = (.ok (.rows [⟨S1, C1, G, truthy (est_map_get roster S1)⟩]),
         store ++ [Record.mk S1 C1 G]) ∧
    handle_actualizar ["ACTUALIZAR", S1, C1, G2] (store ++ [Record.mk S1 C1 G])
      = (.ok (.row ⟨S1, C1, G2, none⟩), store ++ [Record.mk S1 C1 G2]) ∧
    handle_buscar roster ["BUSCAR", S1] (store ++ [Record.mk S1 C1 G2])
      = (.ok (.rows [⟨S1, C1, G2, truthy (est_map_get roster S1)⟩]),
         store ++ [Record.mk S1 C1 G2]) ∧
    handle_eliminar ["ELIMINAR", S1, C1] (store ++ [Record.mk S1 C1 G2])
      = (.ok (.idMateria S1 C1), store) ∧
    handle_buscar roster ["BUSCAR", S1] store = (.notFound "No existe el ID", store) := by
  have hfil : store.filter (fun r => r.id == S1) = [] := filter_id_eq_nil hstore
  have hdup : dup_exists store S1 C1 = false := dup_exists_false_of_no_id hstore
  have hpair : ∀ r ∈ store, isPair S1 C1 r = false := by
    intro r hr
    simp only [isPair, Bool.and_eq_false_iff, beq_eq_false_iff_ne]
    exact Or.inl (hstore r hr)
  refine ⟨?_, ?_, ?_, ?_, ?_, ?_⟩
  · simp [handle_agregar_ch, hg, hdup]
  · simp [handle_buscar, List.filter_append, hfil]
  · have hu := @update_first_append_no_match S1 C1 G2 store
      [Record.mk S1 C1 G] hpair
    have : update_first S1 C1 G2 [Record.mk S1 C1 G]
        = ([Record.mk S1 C1 G2], true) := by
      simp [update_first, isPair]
    rw [this] at hu
    simp [handle_actualizar, hu]
  · simp [handle_buscar, List.filter_append, hfil]
  · have hrem := @filter_not_pair_append store S1 C1 hstore (Record.mk S1 C1 G2)
      (by simp [isPair])
    by_cases hC : C1 = ""
    · subst hC
      have hkeep : store.filter (fun r => !(isPair S1 "" r)) = store := by
        rw [List.filter_eq_self]
        intro a ha
        simp only [Bool.not_eq_true', isPair, Bool.and_eq_false_iff,
          beq_eq_false_iff_ne]
        exact Or.inl (hstore a ha)
      simp only [handle_eliminar, eliminar_solo, List.filter_append, hfil,
        hkeep, isPair]
      simp [List.filter_append, hkeep, isPair]
      intro a ha
      exact Or.inl (hstore a ha)
    · have hlen : ((store ++ [Record.mk S1 C1 G2]).filter
            (fun r => !(isPair S1 C1 r))).length
          ≠ (store ++ [Record.mk S1 C1 G2]).length := by
        rw [hrem]
        simp
      have hlb : (((store ++ [Record.mk S1 C1 G2]).filter
            (fun r => !(isPair S1 C1 r))).length
          == (store ++ [Record.mk S1 C1 G2]).length) = false := by
        rw [beq_eq_false_iff_ne]
        exact hlen
      simp [handle_eliminar, hC, hlb, hrem]
  · simp [handle_buscar, hfil]

/-- Witness for C8: the concrete sequence starting from the empty store. -/
theorem c8_read_after_write_witness :
    handle_agregar_ch (.ok "MAT101" "x") [("S1", "Ana")]
        ["AGREGAR", "S1", "Ana", "MAT101", "10"] []
      = (.ok (.row ⟨"S1", "MAT101", "10", some "Ana"⟩),
         [Record.mk "S1" "MAT101" "10"]) ∧
    handle_eliminar ["ELIMINAR", "S1", "MAT101"]
        [Record.mk "S1" "MAT101" "9"]
      = (.ok (.idMateria "S1" "MAT101"), []) ∧
    handle_buscar [("S1", "Ana")] ["BUSCAR", "S1"] []
      = (.notFound "No existe el ID", []) := by
  have h := c8_read_after_write [("S1", "Ana")] [] "S1" "MAT101" "10" "9"
    "Ana" "MAT101" "x" "Ana" (by simp) (by decide)
  exact ⟨h.1, by simpa using h.2.2.2.2.1, h.2.2.2.2.2⟩

theorem find?_of_filter_singleton {α : Type} {p : α → Bool} {l : List α} {a : α}
    (h : l.filter p = [a]) : l.find? p = some a := by
  induction l with
  | nil => simp at h
  | cons x xs ih =>
    by_cases hx : p x = true
    · simp only [List.filter_cons, if_pos hx, List.cons.injEq] at h
      rw [List.find?_cons_of_pos _ hx, h.1]
    · simp only [List.filter_cons, if_neg hx] at h
      rw [List.find?_cons_of_neg _ (by simpa using hx)]
      exact ih h

theorem get_nombre_of_filter_singleton {roster : Roster} {sid : String}
    (hn : roster.filter (fun e => e.1 == sid) = [(sid, "")]) :
    get_estudiante_nombre roster sid = some "" := by
  unfold get_estudiante_nombre
  rw [find?_of_filter_singleton hn]
  rfl

theorem est_map_truthy_none_of_empty_name {roster : Roster} {sid : String}
    (hn : roster.filter (fun e => e.1 == sid) = [(sid, "")]) :
    truthy (est_map_get roster sid) = none := by
  unfold est_map_get py_dict_get
  cases hf : (roster.filter (fun e => !(e.1 == ""))).reverse.find?
      (fun e => e.1 == sid) with
  | none => rfl
  | some e =>
    have he1 := List.find?_some hf
    have hmem : e ∈ (roster.filter (fun e => !(e.1 == ""))).reverse :=
      List.mem_of_find?_eq_some hf
    rw [List.mem_reverse] at hmem
    have hmem2 : e ∈ roster := (List.mem_filter.mp hmem).1
    have hsng : e ∈ roster.filter (fun x => x.1 == sid) :=
      List.mem_filter.mpr ⟨hmem2, he1⟩
    rw [hn] at hsng
    simp only [List.mem_singleton] at hsng
    subst hsng
    simp [truthy]

theorem est_map_none_of_absent {roster : Roster} {sid : String}
    (hn : roster.filter (fun e => e.1 == sid) = []) :
    est_map_get roster sid = none := by
  unfold est_map_get py_dict_get
  cases hf : (roster.filter (fun e => !(e.1 == ""))).reverse.find?
      (fun e => e.1 == sid) with
  | none => rfl
  | some e =>
    have he1 := List.find?_some hf
    have hmem : e ∈ (roster.filter (fun e => !(e.1 == ""))).reverse :=
      List.mem_of_find?_eq_some hf
    rw [List.mem_reverse] at hmem
    have hmem2 : e ∈ roster := (List.mem_filter.mp hmem).1
    have hsng : e ∈ roster.filter (fun x => x.1 == sid) :=
      List.mem_filter.mpr ⟨hmem2, he1⟩
    rw [hn] at hsng
    simp at hsng

/-- C9: empty-string roster name.  With a roster whose (unique) entry for
`sid` has an empty `Nombre`, AGREGAR's referential check treats the
student as present (its `ok` response carries `Nombre = ""`), while the
BUSCAR enrichment and the LISTAR per-row enrichment (`enrich`) omit the
`Nombre` field from every record of that student — exactly as they do
against a roster with no entry for `sid` at all. -/
theorem c9_empty_roster_name (roster roster' : Roster) (store : Store)
    (sid head nombreArg materia cal nrc mat : String)
    (hn : roster.filter (fun e => e.1 == sid) = [(sid, "")])
    (habs : roster'.filter (fun e => e.1 == sid) = [])
    (hdup : dup_exists store sid materia = false) :
    handle_agregar_ch (.ok nrc mat) roster [head, sid, nombreArg, materia, cal] store
      = (.ok (.row ⟨sid, materia, cal, some ""⟩),
         store ++ [Record.mk sid materia cal]) ∧
    (store.filter (fun r => r.id == sid) ≠ [] →
      handle_buscar roster [head, sid] store
        = (.ok (.rows ((store.filter (fun r => r.id == sid)).map
            (fun r => ⟨r.id, r.materia, r.calificacion, none⟩))), store)) ∧
    (∀ r : Record, r.id = sid → (enrich roster r).nombre = none) ∧
    (store.filter (fun r => r.id == sid) ≠ [] →
      handle_buscar roster' [head, sid] store
        = (.ok (.rows ((store.filter (fun r => r.id == sid)).map
            (fun r => ⟨r.id, r.materia, r.calificacion, none⟩))), store)) ∧
    (∀ r : Record, r.id = sid → (enrich roster' r).nombre = none) := by
  have hg := get_nombre_of_filter_singleton hn
  have ht := est_map_truthy_none_of_empty_name hn
  have ht' : truthy (est_map_get roster' sid) = none := by
    rw [est_map_none_of_absent habs]
    rfl
  refine ⟨?_, ?_, ?_, ?_, ?_⟩
  · simp [handle_agregar_ch, hg, hdup]
  · intro hne
    rcases hfs : store.filter (fun r => r.id == sid) with _ | ⟨x, xs⟩
    · exact absurd hfs hne
    · simp [handle_buscar, hfs, ht]
  · intro r hr
    simp [enrich, hr, ht]
  · intro hne
    rcases hfs : store.filter (fun r => r.id == sid) with _ | ⟨x, xs⟩
    · exact absurd hfs hne
    · simp [handle_buscar, hfs, ht']
  · intro r hr
    simp [enrich, hr, ht']

/-- Witness for C9: a one-entry roster with an empty name against a
one-record store. -/
theorem c9_empty_roster_name_witness :
    handle_agregar_ch (.ok "BD102" "x") [("S1", "")]
        ["AGREGAR", "S1", "Ana", "BD102", "10"] [Record.mk "S1" "MAT101" "8"]
      = (.ok (.row ⟨"S1", "BD102", "10", some ""⟩),
         [Record.mk "S1" "MAT101" "8", Record.mk "S1" "BD102" "10"]) ∧
    handle_buscar [("S1", "")] ["BUSCAR", "S1"] [Record.mk "S1" "MAT101" "8"]
      = (.ok (.rows [⟨"S1", "MAT101", "8", none⟩]),
         [Record.mk "S1" "MAT101" "8"]) := by
  have h := c9_empty_roster_name [("S1", "")] [] [Record.mk "S1" "MAT101" "8"]
    "S1" "BUSCAR" "Ana" "BD102" "10" "BD102" "x"
    (by decide) (by decide) (by decide)
  refine ⟨?_, ?_⟩
  · have h1 := c9_empty_roster_name [("S1", "")] [] [Record.mk "S1" "MAT101" "8"]
      "S1" "AGREGAR" "Ana" "BD102" "10" "BD102" "x"
      (by decide) (by decide) (by decide)
    simpa using h1.1
  · simpa using h.2.1 (by decide)

theorem dropWhile_append_of_all {p : Char → Bool} {w : List Char}
    (l : List Char) (hw : ∀ c ∈ w, p c = true) :
    (w ++ l).dropWhile p = l.dropWhile p := by
  induction w with
  | nil => rfl
  | cons c cs ih =>
    have hc := hw c (List.mem_cons_self c cs)
    simp [List.dropWhile_cons, hc,
      ih (fun x hx => hw x (List.mem_cons_of_mem c hx))]

theorem dropWhile_append_of_ne_nil {p : Char → Bool} {l1 : List Char}
    (l2 : List Char) (h : l1.dropWhile p ≠ []) :
    (l1 ++ l2).dropWhile p = l1.dropWhile p ++ l2 := by
  induction l1 with
  | nil => simp at h
  | cons c cs ih =>
    by_cases hc : p c = true
    · simp only [List.dropWhile_cons, hc, if_pos rfl] at h ⊢
      simp only [List.cons_append, List.dropWhile_cons, hc, if_pos rfl]
      exact ih h
    · simp only [List.cons_append, List.dropWhile_cons, hc]
      simp

theorem pyStripList_pad {w1 w2 : List Char} (l : List Char)
    (h1 : ∀ c ∈ w1, isPySpace c = true) (h2 : ∀ c ∈ w2, isPySpace c = true) :
    pyStripList (w1 ++ l ++ w2) = pyStripList l := by
  unfold pyStripList
  rw [List.append_assoc, dropWhile_append_of_all (l ++ w2) h1]
  by_cases hl : l.dropWhile isPySpace = []
  · have hall : ∀ c ∈ l, isPySpace c = true := by
      intro c hc
      exact List.dropWhile_eq_nil_iff.mp hl c hc
    have hw2 : w2.dropWhile isPySpace = [] :=
      List.dropWhile_eq_nil_iff.mpr h2
    rw [dropWhile_append_of_all w2 hall, hw2, hl]
  · rw [dropWhile_append_of_ne_nil w2 hl, List.reverse_append,
      dropWhile_append_of_all _ (fun c hc => h2 c (List.mem_reverse.mp hc))]

theorem pyStrip_pad (w1 w2 : List Char) (s : String)
    (h1 : ∀ c ∈ w1, isPySpace c = true) (h2 : ∀ c ∈ w2, isPySpace c = true) :
    pyStrip ⟨w1 ++ s.data ++ w2⟩ = pyStrip s := by
  unfold pyStrip
  rw [show (⟨w1 ++ s.data ++ w2⟩ : String).data = w1 ++ s.data ++ w2 from rfl,
    pyStripList_pad s.data h1 h2]

theorem handle_agregar_ch_head (n : NrcResp) (ro : Roster) (f g : String)
    (rest : List String) (s : Store) :
    handle_agregar_ch n ro (f :: rest) s = handle_agregar_ch n ro (g :: rest) s := by
  rcases rest with _ | ⟨a, _ | ⟨b, _ | ⟨c, _ | ⟨d, _ | ⟨e, r⟩⟩⟩⟩⟩ <;> rfl

theorem handle_agregar_sh_head (ro : Roster) (f g : String)
    (rest : List String) (s : Store) :
    handle_agregar_sh ro (f :: rest) s = handle_agregar_sh ro (g :: rest) s := by
  rcases rest with _ | ⟨a, _ | ⟨b, _ | ⟨c, _ | ⟨d, r⟩⟩⟩⟩ <;> rfl

theorem handle_buscar_head (ro : Roster) (f g : String)
    (rest : List String) (s : Store) :
    handle_buscar ro (f :: rest) s = handle_buscar ro (g :: rest) s := by
  rcases rest with _ | ⟨a, _ | ⟨b, r⟩⟩ <;> rfl

theorem handle_actualizar_head (f g : String) (rest : List String) (s : Store) :
    handle_actualizar (f :: rest) s = handle_actualizar (g :: rest) s := by
  rcases rest with _ | ⟨a, _ | ⟨b, _ | ⟨c, _ | ⟨d, r⟩⟩⟩⟩ <;> rfl

theorem handle_listar_head (ro : Roster) (f g : String)
    (rest : List String) (s : Store) :
    handle_listar ro (f :: rest) s = handle_listar ro (g :: rest) s := by
  rcases rest with _ | ⟨a, r⟩ <;> rfl

theorem handle_eliminar_head (f g : String) (rest : List String) (s : Store) :
    handle_eliminar (f :: rest) s = handle_eliminar (g :: rest) s := by
  rcases rest with _ | ⟨a, _ | ⟨b, _ | ⟨c, r⟩⟩⟩ <;> rfl

theorem dispatch_ch_upper (n : NrcResp) (ro : Roster) (f g : String)
    (rest : List String) (s : Store) (h : pyUpper f = pyUpper g) :
    dispatch_ch n ro (f :: rest) s = dispatch_ch n ro (g :: rest) s := by
  simp only [dispatch_ch]
  rw [h, handle_agregar_ch_head n ro f g rest s, handle_buscar_head ro f g rest s,
    handle_actualizar_head f g rest s, handle_listar_head ro f g rest s,
    handle_eliminar_head f g rest s]

theorem dispatch_sh_upper (ro : Roster) (f g : String)
    (rest : List String) (s : Store) (h : pyUpper f = pyUpper g) :
    dispatch_sh ro (f :: rest) s = dispatch_sh ro (g :: rest) s := by
  simp only [dispatch_sh]
  rw [h, handle_agregar_sh_head ro f g rest s, handle_buscar_head ro f g rest s,
    handle_actualizar_head f g rest s, handle_listar_head ro f g rest s,
    handle_eliminar_head f g rest s]

/-- C10: whitespace-tolerant, case-insensitive dispatch.  Both
`process_command`s strip the line before splitting, so padding a line
with leading/trailing whitespace changes nothing; the split fields are
dispatched on the upper-cased first field only, so two first fields with
the same upper-casing (e.g. any case variant of a command name and its
canonical spelling) give identical responses and store effects with the
same argument fields; and each `process_command` is exactly dispatch over
the stripped-and-split line. -/
theorem c10_dispatch_normalization (nrcResp : NrcResp) (roster : Roster)
    (store : Store) (w1 w2 : List Char) (line : String) (f g : String)
    (rest : List String)
    (h1 : ∀ c ∈ w1, isPySpace c = true) (h2 : ∀ c ∈ w2, isPySpace c = true)
    (hfg : pyUpper f = pyUpper g) :
    process_command_ch nrcResp roster ⟨w1 ++ line.data ++ w2⟩ store
      = process_command_ch nrcResp roster line store ∧
    process_command_sh roster ⟨w1 ++ line.data ++ w2⟩ store
      = process_command_sh roster line store ∧
    dispatch_ch nrcResp roster (f :: rest) store
      = dispatch_ch nrcResp roster (g :: rest) store ∧
    dispatch_sh roster (f :: rest) store
      = dispatch_sh roster (g :: rest) store ∧
    process_command_ch nrcResp roster line store
      = dispatch_ch nrcResp roster (pcParse line) store ∧
    process_command_sh roster line store
      = dispatch_sh roster (pcParse line) store := by
  refine ⟨?_, ?_, dispatch_ch_upper nrcResp roster f g rest store hfg,
    dispatch_sh_upper roster f g rest store hfg, rfl, rfl⟩
  · unfold process_command_ch pcParse
    rw [pyStrip_pad w1 w2 line h1 h2]
  · unfold process_command_sh pcParse
    rw [pyStrip_pad w1 w2 line h1 h2]

/-- Witness for C10: padding with a space and a tab, and the lower-camel
spelling of ELIMINAR, at concrete inputs. -/
theorem c10_dispatch_normalization_witness :
    process_command_ch (.ok "a" "b") []
        ⟨[' '] ++ "LISTAR".data ++ ['\t']⟩ [Record.mk "S1" "A" "1"]
      = process_command_ch (.ok "a" "b") [] "LISTAR" [Record.mk "S1" "A" "1"] ∧
    dispatch_ch (.ok "a" "b") [] ["eLiMiNaR", "S1"] [Record.mk "S1" "A" "1"]
      = dispatch_ch (.ok "a" "b") [] ["ELIMINAR", "S1"] [Record.mk "S1" "A" "1"] := by
  have h := c10_dispatch_normalization (.ok "a" "b") [] [Record.mk "S1" "A" "1"]
    [' '] ['\t'] "LISTAR" "eLiMiNaR" "ELIMINAR" ["S1"]
    (by decide) (by decide) (by decide)
  exact ⟨h.1, h.2.2.1⟩

end Lab2
